import Mathlib

/-!
Verification of the intmax2-cli client core against its specification.

The development shallowly embeds the parts of the repository the claims
concern:

* the compressed-proof codec of `withdrawal-server/src/api/encode.rs`
  (`encode_plonky2_proof`, `decode_plonky2_proof`,
  `compressed_proof_to_bytes`, `compressed_proof_from_bytes`);
* the transfer-batching utility of `client-sdk/src/client/utils.rs`
  (`generate_transfer_tree`) together with the input-size guard of
  `wasm/src/lib.rs` (`send_tx_request`);
* the HTTP query layer of `client-sdk/src/external_api/utils/query.rs`
  (`post_request`, `get_request`, `handle_response`, `ErrorResponse`);
* the balance-prover client of
  `client-sdk/src/external_api/balance_prover.rs` (the six `prove_*`
  operations and `get_bearer_token`).

External library code (plonky2 buffer serialization, proof compression,
the intmax2_zkp Merkle tree, reqwest, serde) is modelled at its interface
boundary: opaque operations are taken as parameters, and byte-level
primitives (`write_u32`, `write_field_vec`, buffer reads) are given their
documented little-endian semantics.  Bytes are `Nat`s below 256; machine
truncation (`as u32`) is explicit via `% 2 ^ 32`.
-/

namespace Intmax2Cli

/-! ## Byte-level primitives (plonky2 `util::serialization` semantics) -/

/-- Little-endian byte encoding of `x`, exactly `k` bytes (truncating). -/
def leBytes : Nat → Nat → List Nat
  | 0, _ => []
  | k + 1, x => (x % 256) :: leBytes k (x / 256)

/-- Little-endian byte decoding. -/
def leNat : List Nat → Nat
  | [] => 0
  | b :: bs => b % 256 + 256 * leNat bs

theorem leBytes_length (k x : Nat) : (leBytes k x).length = k := by
  induction k generalizing x with
  | zero => rfl
  | succ k ih => simp [leBytes, ih]

theorem leNat_leBytes (k x : Nat) : leNat (leBytes k x) = x % 256 ^ k := by
  induction k generalizing x with
  | zero => simp [leBytes, leNat, Nat.mod_one]
  | succ k ih =>
    simp only [leBytes, leNat, ih]
    rw [Nat.mod_mod_of_dvd x (dvd_refl 256), pow_succ,
      mul_comm (256 ^ k) 256, Nat.mod_mul]

/-- Source `Buffer::write_u32`: 4 bytes, little endian.  A Rust `as u32` cast on
the way in is the `% 2 ^ 32` implicit in the 4-byte truncation. -/
def write_u32 (n : Nat) : List Nat := leBytes 4 n

/-- Source `Buffer::write_field_vec` for Goldilocks: each element's canonical
`u64` value as 8 little-endian bytes, concatenated in order. -/
def write_field_vec : List Nat → List Nat
  | [] => []
  | x :: xs => leBytes 8 x ++ write_field_vec xs

theorem write_field_vec_length (xs : List Nat) :
    (write_field_vec xs).length = 8 * xs.length := by
  induction xs with
  | nil => rfl
  | cons x xs ih =>
    simp [write_field_vec, leBytes_length, ih, Nat.mul_succ, Nat.add_comm]

/-- Source `Buffer::read_u32`: consume 4 bytes or fail. -/
def read_u32 (bytes : List Nat) : Option (Nat × List Nat) :=
  if 4 ≤ bytes.length then some (leNat (bytes.take 4), bytes.drop 4) else none

/-- The field elements read by `Buffer::read_field_vec`: `n` groups of
8 little-endian bytes. -/
def fieldChunks : Nat → List Nat → List Nat
  | 0, _ => []
  | k + 1, bytes => leNat (bytes.take 8) :: fieldChunks k (bytes.drop 8)

/-- Source `Buffer::read_field_vec n`: consume `8 * n` bytes or fail. -/
def read_field_vec (n : Nat) (bytes : List Nat) :
    Option (List Nat × List Nat) :=
  if 8 * n ≤ bytes.length then some (fieldChunks n bytes, bytes.drop (8 * n))
  else none

theorem fieldChunks_length (n : Nat) (bytes : List Nat) :
    (fieldChunks n bytes).length = n := by
  induction n generalizing bytes with
  | zero => rfl
  | succ n ih => simp [fieldChunks, ih]

theorem fieldChunks_write_field_vec (xs rest : List Nat)
    (h : ∀ x ∈ xs, x < 2 ^ 64) :
    fieldChunks xs.length (write_field_vec xs ++ rest) = xs := by
  induction xs with
  | nil => rfl
  | cons x xs ih =>
    have hx : x < 2 ^ 64 := h x (List.mem_cons_self x xs)
    have hlen : (leBytes 8 x).length = 8 := leBytes_length 8 x
    simp only [List.length_cons, fieldChunks, write_field_vec, List.append_assoc]
    rw [List.take_left' hlen, List.drop_left' hlen, leNat_leBytes,
      ih (fun y hy => h y (List.mem_cons_of_mem x hy))]
    congr 1
    have : (256 : Nat) ^ 8 = 2 ^ 64 := by norm_num
    rw [this]
    exact Nat.mod_eq_of_lt hx

/-! ## Compressed proof codec (`withdrawal-server/src/api/encode.rs`)

The proof objects themselves (plonky2 `Proof` / `CompressedProof`) and the
verifier circuit metadata are opaque: the codec functions are parametrised
by the library operations they call (`compress`, `decompress`,
`write_compressed_proof`, `read_compressed_proof`), exactly following the
call structure of `encode.rs`. -/

/-- plonky2 `ProofWithPublicInputs`: an opaque proof plus its
public-inputs vector of Goldilocks field elements. -/
structure ProofWithPublicInputs (P : Type) where
  proof : P
  public_inputs : List Nat
  deriving DecidableEq, Repr

/-- plonky2 `CompressedProofWithPublicInputs`. -/
structure CompressedProofWithPublicInputs (CP : Type) where
  proof : CP
  public_inputs : List Nat
  deriving DecidableEq, Repr

/-- The Goldilocks field order `2^64 - 2^32 + 1`; canonical field-element
values lie below it. -/
def goldilocksOrder : Nat := 2 ^ 64 - 2 ^ 32 + 1

/-- Source `compressed_proof_to_bytes` (encode.rs lines 45-60): write the
public-inputs length as `u32` (Rust `len() as u32` truncates, hence the
4-byte truncation of `write_u32`), then the field vector, then the
compressed proof's native serialization `writeCP`. -/
def compressed_proof_to_bytes {CP : Type} (writeCP : CP → List Nat)
    (c : CompressedProofWithPublicInputs CP) : List Nat :=
  write_u32 c.public_inputs.length
    ++ write_field_vec c.public_inputs
    ++ writeCP c.proof

/-- Source `compressed_proof_from_bytes` (encode.rs lines 62-76): read the
4-byte length prefix, read that many field elements, then parse the rest
as a compressed proof with the library reader `readCP` (which receives the
remaining bytes, as plonky2's `Buffer` does).  Any step failing fails the
whole decode; no partial value is produced. -/
def compressed_proof_from_bytes {CP : Type}
    (readCP : List Nat → Option CP) (bytes : List Nat) :
    Option (CompressedProofWithPublicInputs CP) :=
  match read_u32 bytes with
  | none => none
  | some (public_inputs_len, rest) =>
    match read_field_vec public_inputs_len rest with
    | none => none
    | some (public_inputs, rest2) =>
      match readCP rest2 with
      | none => none
      | some proof => some ⟨proof, public_inputs⟩

/-- Source `encode_plonky2_proof` (encode.rs lines 15-29): compress against the
verifier metadata, then serialize.  `compress` is the plonky2 library
operation, which may fail. -/
def encode_plonky2_proof {P CP Meta : Type}
    (compress :
      ProofWithPublicInputs P → Meta →
        Option (CompressedProofWithPublicInputs CP))
    (writeCP : CP → List Nat)
    (proof : ProofWithPublicInputs P) (circuit_data : Meta) :
    Option (List Nat) :=
  match compress proof circuit_data with
  | none => none
  | some compressed_proof =>
    some (compressed_proof_to_bytes writeCP compressed_proof)

/-- Source `decode_plonky2_proof` (encode.rs lines 31-43): parse bytes, then
decompress against the verifier metadata. -/
def decode_plonky2_proof {P CP Meta : Type}
    (decompress :
      CompressedProofWithPublicInputs CP → Meta →
        Option (ProofWithPublicInputs P))
    (readCP : List Nat → Option CP)
    (encoded_proof : List Nat) (circuit_data : Meta) :
    Option (ProofWithPublicInputs P) :=
  match compressed_proof_from_bytes readCP encoded_proof with
  | none => none
  | some compressed_proof => decompress compressed_proof circuit_data

/-! ## Transfer batching (`client-sdk/src/client/utils.rs`)

`Transfer` is opaque here (a type parameter, with its `Default::default()`
value passed explicitly).  The intmax2_zkp `TransferTree` is an external
incremental Merkle tree; at its interface boundary it is its height plus
the ordered sequence of leaves pushed so far — the claims only concern the
leaf sequence. -/

/-- Source `intmax2_zkp::constants::NUM_TRANSFERS_IN_TX` (external constant). -/
def NUM_TRANSFERS_IN_TX : Nat := 64

/-- Source `intmax2_zkp::constants::TRANSFER_TREE_HEIGHT` (external constant,
`log2` of `NUM_TRANSFERS_IN_TX`). -/
def TRANSFER_TREE_HEIGHT : Nat := 6

/-- intmax2_zkp `TransferTree`, at its interface boundary: the fixed
height and the leaves pushed so far, in order. -/
structure TransferTree (T : Type) where
  height : Nat
  leaves : List T
  deriving DecidableEq, Repr

/-- Source `TransferTree::new(height)`: an empty tree. -/
def TransferTree.new (T : Type) (height : Nat) : TransferTree T :=
  ⟨height, []⟩

/-- Source `TransferTree::push`: append one leaf. -/
def TransferTree.push {T : Type} (tree : TransferTree T) (transfer : T) :
    TransferTree T :=
  ⟨tree.height, tree.leaves ++ [transfer]⟩

/-- Rust `Vec::resize(n, d)`: truncate to `n` if longer, else pad with
`d` up to length `n`. -/
def vecResize {T : Type} (l : List T) (n : Nat) (d : T) : List T :=
  l.take n ++ List.replicate (n - l.length) d

/-- Source `generate_transfer_tree` (client/utils.rs lines 11-19): resize the
input to `NUM_TRANSFERS_IN_TX` entries padding with `Transfer::default()`
(passed as `default`), then push every entry in order into a fresh tree
of height `TRANSFER_TREE_HEIGHT`. -/
def generate_transfer_tree {T : Type} (default : T) (transfers : List T) :
    TransferTree T :=
  let resized := vecResize transfers NUM_TRANSFERS_IN_TX default
  resized.foldl TransferTree.push
    (TransferTree.new T TRANSFER_TREE_HEIGHT)

/-- The size guard of `send_tx_request` (wasm/src/lib.rs lines 79-84):
reject more than `NUM_TRANSFERS_IN_TX` transfers before anything else
(key parsing, transfer conversion, and the client call all come after). -/
def send_tx_request_size_check {T : Type} (transfers : List T) :
    Except String Unit :=
  if transfers.length > NUM_TRANSFERS_IN_TX then
    Except.error
      "Number of transfers in a tx must be less than or equal to 64"
  else Except.ok ()

/-! ## HTTP query layer (`client-sdk/src/external_api/utils/query.rs`)

Responses, JSON (de)serialization, and the network are modelled at the
reqwest/serde interface boundary: a `Response` is a status code plus an
optional body text (`none` models a body whose `text()` read fails), and
serde calls are parameters.  The network is a function from the attempt
index to that attempt's outcome, and every operation returns the number
of network calls it performed alongside its result, so that retry counts
are observable. -/

/-- Source `ServerError` (intmax2_interfaces error taxonomy), the variants used
by the query layer and the balance-prover client. -/
inductive ServerError where
  | NetworkError : String → ServerError
  | ServerError : Nat → String → String → String → ServerError
  | DeserializationError : String → ServerError
  | SerializeError : String → ServerError
  | EnvError : String → ServerError
  deriving DecidableEq, Repr

/-- Source `ErrorResponse` (query.rs lines 10-15): the structured error body
`{ error, message? }`. -/
structure ErrorResponse where
  error : String
  message : Option String
  deriving DecidableEq, Repr

/-- A well-formed HTTP response: status code, and the body text
(`none` when reading the body as text fails). -/
structure Response where
  status : Nat
  body : Option String
  deriving DecidableEq, Repr

/-- reqwest `StatusCode::is_success`: the 2xx range. -/
def statusIsSuccess (status : Nat) : Bool :=
  200 ≤ status && status < 300

/-- One attempt's outcome at the reqwest `send()` boundary: a transport
failure, or a well-formed HTTP response (of any status). -/
inductive AttemptOutcome where
  | transportError : String → AttemptOutcome
  | gotResponse : Response → AttemptOutcome
  deriving DecidableEq, Repr

/-- Modelled from the spec: `with_retry`
(client-sdk/src/external_api/utils/retry.rs) is not in the source sample;
per §4.2 it retries only transport failures, up to a bounded attempt
count with backoff, and returns the first well-formed response
immediately.  `fuel` is the number of attempts still allowed, `made` the
number of calls already made; the result pairs the total number of
network calls with the outcome. -/
def with_retry_go (attempts : Nat → AttemptOutcome) :
    Nat → Nat → Nat × Except String Response
  | 0, made => (made, Except.error "retry limit reached")
  | fuel + 1, made =>
    match attempts made with
    | AttemptOutcome.gotResponse r => (made + 1, Except.ok r)
    | AttemptOutcome.transportError e =>
      match fuel with
      | 0 => (made + 1, Except.error e)
      | f + 1 => with_retry_go attempts (f + 1) (made + 1)

/-- Modelled from the spec: the bounded-retry wrapper `with_retry`
(§4.2).  `maxAttempts` is the fixed attempt bound. -/
def with_retry (maxAttempts : Nat) (attempts : Nat → AttemptOutcome) :
    Nat × Except String Response :=
  with_retry_go attempts maxAttempts 0

/-- Source `handle_response` (query.rs lines 87-117).  `parseErrorResponse`
models `serde_json::from_str::<ErrorResponse>`, `parseBody` models
`response.json::<R>()` on the body text.  On a non-2xx status: read the
body text (with the literal fallback on a failed read), prefer the parsed
body's `message`, then its `error`, else the raw text; echo the request
string truncated to 500 characters (empty when absent). -/
def handle_response {R : Type} (parseErrorResponse : String → Option ErrorResponse)
    (parseBody : String → Option R) (response : Response) (url : String)
    (request_str : Option String) : Except ServerError R :=
  if !statusIsSuccess response.status then
    let error_text := response.body.getD "Failed to read error response"
    let error_message :=
      match parseErrorResponse error_text with
      | some error_resp => error_resp.message.getD error_resp.error
      | none => error_text
    let abr_request := (request_str.map (fun s => s.take 500)).getD ""
    Except.error
      (ServerError.ServerError response.status error_message url abr_request)
  else
    match response.body with
    | none => Except.error (ServerError.DeserializationError "error decoding response body")
    | some t =>
      match parseBody t with
      | none => Except.error (ServerError.DeserializationError "error decoding response body")
      | some r => Except.ok r

/-- Source `post_request` (query.rs lines 17-47): build the url, send through
`with_retry` (transport failure after all retries becomes
`NetworkError`), serialize the request body for diagnostics
(`serializeBody` models `serde_json::to_string`; its failure is
`SerializeError`, after the network call, as in the source), then
`handle_response` with the serialized body as the request string.  Header
construction is at the reqwest boundary and always succeeds here.  The
first component counts network calls. -/
def post_request {B R : Type} (serializeBody : B → Option String)
    (parseErrorResponse : String → Option ErrorResponse)
    (parseBody : String → Option R) (maxAttempts : Nat)
    (attempts : Nat → AttemptOutcome) (base_url endpoint : String)
    (body : B) (bearer_token : Option String) :
    Nat × Except ServerError R :=
  let url := base_url ++ endpoint
  let _headers := bearer_token
  match with_retry maxAttempts attempts with
  | (calls, Except.error e) => (calls, Except.error (ServerError.NetworkError e))
  | (calls, Except.ok response) =>
    match serializeBody body with
    | none =>
      (calls, Except.error (ServerError.SerializeError "Failed to serialize body"))
    | some body_str =>
      (calls, handle_response parseErrorResponse parseBody response url (some body_str))

/-- The query-string serialization step of `get_request` (query.rs lines
60-67): `query.as_ref().map(serde_qs::to_string).transpose()?`, with a
serialization failure mapped to `SerializeError`. -/
def querySerialize {Q : Type} (serializeQuery : Q → Option String)
    (query : Option Q) : Except ServerError (Option String) :=
  match query with
  | none => Except.ok none
  | some q =>
    match serializeQuery q with
    | none => Except.error (ServerError.SerializeError "Failed to serialize query")
    | some qs => Except.ok (some qs)

/-- Source `get_request` (query.rs lines 49-85): serialize the query string
first (`serializeQuery` models `serde_qs::to_string`; its failure is a
`SerializeError` before any network call), append `?query` only when a
query is present, send through `with_retry`, then `handle_response` with
the query string as the request string. -/
def get_request {Q R : Type} (serializeQuery : Q → Option String)
    (parseErrorResponse : String → Option ErrorResponse)
    (parseBody : String → Option R) (maxAttempts : Nat)
    (attempts : Nat → AttemptOutcome) (base_url endpoint : String)
    (query : Option Q) (bearer_token : Option String) :
    Nat × Except ServerError R :=
  let url0 := base_url ++ endpoint
  match querySerialize serializeQuery query with
  | Except.error e => (0, Except.error e)
  | Except.ok query_str =>
    let url :=
      match query_str with
      | some qs => url0 ++ "?" ++ qs
      | none => url0
    let _headers := bearer_token
    match with_retry maxAttempts attempts with
    | (calls, Except.error e) => (calls, Except.error (ServerError.NetworkError e))
    | (calls, Except.ok response) =>
      (calls, handle_response parseErrorResponse parseBody response url query_str)

/-! ## Balance-prover client (`client-sdk/src/external_api/balance_prover.rs`)

Witness types, `KeySet`, `U256` and the proof type are opaque type
parameters; the request types mirror the `intmax2_interfaces` request
structures field for field.  Each operation takes the process-wide
environment (the optional `BALANCE_PROVER_BEARER_TOKEN` value) plus the
serde/network parameters of `post_request`, and returns the network-call
count with its result. -/

/-- Source `ProveSpentRequest { spent_witness }`. -/
structure ProveSpentRequest (SW : Type) where
  spent_witness : SW

/-- Source `ProveSendRequest { pubkey, tx_witnes, update_witness, spent_proof,
prev_proof }`. -/
structure ProveSendRequest (U TW UW Pf : Type) where
  pubkey : U
  tx_witnes : TW
  update_witness : UW
  spent_proof : Pf
  prev_proof : Option Pf

/-- Source `ProveUpdateRequest { pubkey, update_witness, prev_proof }`. -/
structure ProveUpdateRequest (U UW Pf : Type) where
  pubkey : U
  update_witness : UW
  prev_proof : Option Pf

/-- Source `ProveReceiveTransferRequest { pubkey, receive_transfer_witness,
prev_proof }`. -/
structure ProveReceiveTransferRequest (U RTW Pf : Type) where
  pubkey : U
  receive_transfer_witness : RTW
  prev_proof : Option Pf

/-- Source `ProveReceiveDepositRequest { pubkey, receive_deposit_witness,
prev_proof }`. -/
structure ProveReceiveDepositRequest (U RDW Pf : Type) where
  pubkey : U
  receive_deposit_witness : RDW
  prev_proof : Option Pf

/-- Source `ProveSingleWithdrawalRequest { withdrawal_witness }`. -/
structure ProveSingleWithdrawalRequest (WW : Type) where
  withdrawal_witness : WW

/-- Source `ProveResponse { proof }`. -/
structure ProveResponse (Pf : Type) where
  proof : Pf

/-- Source `get_bearer_token` (balance_prover.rs lines 179-183): read
`BALANCE_PROVER_BEARER_TOKEN` from the process environment (modelled as
`Option String`); absence is `ServerError::EnvError`. -/
def get_bearer_token (env : Option String) : Except ServerError String :=
  match env with
  | none =>
    Except.error (ServerError.EnvError
      "Failed to get bearer token: environment variable not found")
  | some token => Except.ok token

/-- The serde/network context a `post_request` call needs, bundled so the
six `prove_*` operations stay readable: the body serializer, the two
response parsers, the retry bound, and the attempt outcomes. -/
structure PostContext (B R : Type) where
  serializeBody : B → Option String
  parseErrorResponse : String → Option ErrorResponse
  parseBody : String → Option R
  maxAttempts : Nat
  attempts : Nat → AttemptOutcome

/-- Run `post_request` with a bundled context. -/
def PostContext.run {B R : Type} (ctx : PostContext B R)
    (base_url endpoint : String) (body : B) (bearer_token : Option String) :
    Nat × Except ServerError R :=
  post_request ctx.serializeBody ctx.parseErrorResponse ctx.parseBody
    ctx.maxAttempts ctx.attempts base_url endpoint body bearer_token

/-- Source `prove_spent` (balance_prover.rs lines 50-66): `_key` is accepted and
ignored; the bearer token is read first (`get_bearer_token()?`), so a
missing token returns before any network call; the request carries only
the spent witness. -/
def prove_spent {K SW Pf : Type}
    (env : Option String)
    (ctx : PostContext (ProveSpentRequest SW) (ProveResponse Pf))
    (base_url : String) ( _key : K) (spent_witness : SW) :
    Nat × Except ServerError Pf :=
  match get_bearer_token env with
  | Except.error e => (0, Except.error e)
  | Except.ok token =>
    let request : ProveSpentRequest SW := ⟨spent_witness⟩
    let result := ctx.run base_url "/balance-prover/prove-spent" request (some token)
    (result.1, result.2.map (fun response => response.proof))

/-- Source `prove_send` (balance_prover.rs lines 68-92). -/
def prove_send {K U TW UW Pf : Type}
    (env : Option String)
    (ctx : PostContext (ProveSendRequest U TW UW Pf) (ProveResponse Pf))
    (base_url : String) ( _key : K) (pubkey : U) (tx_witnes : TW)
    (update_witness : UW) (spent_proof : Pf) (prev_proof : Option Pf) :
    Nat × Except ServerError Pf :=
  match get_bearer_token env with
  | Except.error e => (0, Except.error e)
  | Except.ok token =>
    let request : ProveSendRequest U TW UW Pf :=
      ⟨pubkey, tx_witnes, update_witness, spent_proof, prev_proof⟩
    let result := ctx.run base_url "/balance-prover/prove-send" request (some token)
    (result.1, result.2.map (fun response => response.proof))

/-- Source `prove_update` (balance_prover.rs lines 94-114). -/
def prove_update {K U UW Pf : Type}
    (env : Option String)
    (ctx : PostContext (ProveUpdateRequest U UW Pf) (ProveResponse Pf))
    (base_url : String) ( _key : K) (pubkey : U) (update_witness : UW)
    (prev_proof : Option Pf) :
    Nat × Except ServerError Pf :=
  match get_bearer_token env with
  | Except.error e => (0, Except.error e)
  | Except.ok token =>
    let request : ProveUpdateRequest U UW Pf :=
      ⟨pubkey, update_witness, prev_proof⟩
    let result := ctx.run base_url "/balance-prover/prove-update" request (some token)
    (result.1, result.2.map (fun response => response.proof))

/-- Source `prove_receive_transfer` (balance_prover.rs lines 116-136). -/
def prove_receive_transfer {K U RTW Pf : Type}
    (env : Option String)
    (ctx : PostContext (ProveReceiveTransferRequest U RTW Pf) (ProveResponse Pf))
    (base_url : String) ( _key : K) (pubkey : U)
    (receive_transfer_witness : RTW) (prev_proof : Option Pf) :
    Nat × Except ServerError Pf :=
  match get_bearer_token env with
  | Except.error e => (0, Except.error e)
  | Except.ok token =>
    let request : ProveReceiveTransferRequest U RTW Pf :=
      ⟨pubkey, receive_transfer_witness, prev_proof⟩
    let result :=
      ctx.run base_url "/balance-prover/prove-receive-transfer" request (some token)
    (result.1, result.2.map (fun response => response.proof))

/-- Source `prove_receive_deposit` (balance_prover.rs lines 138-158). -/
def prove_receive_deposit {K U RDW Pf : Type}
    (env : Option String)
    (ctx : PostContext (ProveReceiveDepositRequest U RDW Pf) (ProveResponse Pf))
    (base_url : String) ( _key : K) (pubkey : U)
    (receive_deposit_witness : RDW) (prev_proof : Option Pf) :
    Nat × Except ServerError Pf :=
  match get_bearer_token env with
  | Except.error e => (0, Except.error e)
  | Except.ok token =>
    let request : ProveReceiveDepositRequest U RDW Pf :=
      ⟨pubkey, receive_deposit_witness, prev_proof⟩
    let result :=
      ctx.run base_url "/balance-prover/prove-receive-deposit" request (some token)
    (result.1, result.2.map (fun response => response.proof))

/-- Source `prove_single_withdrawal` (balance_prover.rs lines 160-176). -/
def prove_single_withdrawal {K WW Pf : Type}
    (env : Option String)
    (ctx : PostContext (ProveSingleWithdrawalRequest WW) (ProveResponse Pf))
    (base_url : String) ( _key : K) (withdrawal_witness : WW) :
    Nat × Except ServerError Pf :=
  match get_bearer_token env with
  | Except.error e => (0, Except.error e)
  | Except.ok token =>
    let request : ProveSingleWithdrawalRequest WW := ⟨withdrawal_witness⟩
    let result :=
      ctx.run base_url "/balance-prover/prove-single-withdrawal" request (some token)
    (result.1, result.2.map (fun response => response.proof))

/-! ## Theorems -/

theorem foldl_push_leaves {T : Type} (ts : List T) (tree : TransferTree T) :
    (ts.foldl TransferTree.push tree).leaves = tree.leaves ++ ts := by
  induction ts generalizing tree with
  | nil => simp
  | cons t ts ih =>
    simp only [List.foldl_cons, ih, TransferTree.push, List.append_assoc,
      List.singleton_append]

theorem generate_transfer_tree_leaves {T : Type} (default : T)
    (transfers : List T) :
    (generate_transfer_tree default transfers).leaves =
      transfers.take NUM_TRANSFERS_IN_TX
        ++ List.replicate (NUM_TRANSFERS_IN_TX - transfers.length) default := by
  simp [generate_transfer_tree, foldl_push_leaves, TransferTree.new, vecResize]

/-- Claim C2: for every input of length `k ≤ NUM_TRANSFERS_IN_TX`,
`generate_transfer_tree` produces a tree with exactly
`NUM_TRANSFERS_IN_TX` leaves whose first `k` leaves are the input in
order and whose remaining leaves all equal the canonical default
transfer. -/
theorem generate_transfer_tree_pads {T : Type} (default : T)
    (transfers : List T)
    (h : transfers.length ≤ NUM_TRANSFERS_IN_TX) :
    (generate_transfer_tree default transfers).leaves.length
        = NUM_TRANSFERS_IN_TX ∧
    (generate_transfer_tree default transfers).leaves.take transfers.length
        = transfers ∧
    (generate_transfer_tree default transfers).leaves.drop transfers.length
        = List.replicate (NUM_TRANSFERS_IN_TX - transfers.length) default := by
  have htake : transfers.take NUM_TRANSFERS_IN_TX = transfers :=
    List.take_of_length_le h
  rw [generate_transfer_tree_leaves, htake]
  refine ⟨?_, ?_, ?_⟩
  · simp only [List.length_append, List.length_replicate]
    omega
  · exact List.take_left' rfl
  · exact List.drop_left' rfl

/-- Claim C2 witness: three concrete transfers are padded to 64 leaves. -/
theorem generate_transfer_tree_pads_witness :
    (generate_transfer_tree (0 : Nat) [1, 2, 3]).leaves.length
        = NUM_TRANSFERS_IN_TX ∧
    (generate_transfer_tree (0 : Nat) [1, 2, 3]).leaves.take 3 = [1, 2, 3] ∧
    (generate_transfer_tree (0 : Nat) [1, 2, 3]).leaves.drop 3
        = List.replicate (NUM_TRANSFERS_IN_TX - 3) 0 :=
  generate_transfer_tree_pads 0 [1, 2, 3] (by decide)

/-- Claim C3 counterexample: with 65 transfers (`NUM_TRANSFERS_IN_TX`
is 64), `generate_transfer_tree` does not fail: it silently builds a
tree whose leaves are the first 64 inputs, i.e. it truncates, because
`Vec::resize` shortens a too-long vector. -/
theorem generate_transfer_tree_truncation_ce :
    NUM_TRANSFERS_IN_TX < (List.range 65).length ∧
    (generate_transfer_tree (1000 : Nat) (List.range 65)).leaves
        = List.range 64 := by
  constructor
  · decide
  · rw [generate_transfer_tree_leaves]
    decide

/-- Claim C3 (amended): supplying more than `NUM_TRANSFERS_IN_TX`
transfers is rejected by the wasm entry point `send_tx_request` before
any tree construction, but `generate_transfer_tree` itself does not
fail on oversized input: it truncates to the first
`NUM_TRANSFERS_IN_TX` entries. -/
theorem oversize_batch_guard {T : Type} (default : T) (transfers : List T)
    (h : NUM_TRANSFERS_IN_TX < transfers.length) :
    (∃ msg, send_tx_request_size_check transfers = Except.error msg) ∧
    (generate_transfer_tree default transfers).leaves
        = transfers.take NUM_TRANSFERS_IN_TX := by
  constructor
  · exact ⟨"Number of transfers in a tx must be less than or equal to 64",
      by simp only [send_tx_request_size_check,
        if_pos (show transfers.length > NUM_TRANSFERS_IN_TX from h)]⟩
  · rw [generate_transfer_tree_leaves]
    have : NUM_TRANSFERS_IN_TX - transfers.length = 0 := by omega
    simp [this]

/-- Claim C3 (amended) witness: 65 concrete transfers are rejected by
the wasm guard, and truncated by `generate_transfer_tree`. -/
theorem oversize_batch_guard_witness :
    (∃ msg, send_tx_request_size_check (List.range 65) = Except.error msg) ∧
    (generate_transfer_tree (1000 : Nat) (List.range 65)).leaves
        = (List.range 65).take NUM_TRANSFERS_IN_TX :=
  oversize_batch_guard 1000 (List.range 65) (by decide)

theorem goldilocksOrder_lt_two_pow_64 : goldilocksOrder < 2 ^ 64 := by
  norm_num [goldilocksOrder]

theorem compressed_proof_to_bytes_length {CP : Type} (writeCP : CP → List Nat)
    (c : CompressedProofWithPublicInputs CP) :
    (compressed_proof_to_bytes writeCP c).length
      = 4 + 8 * c.public_inputs.length + (writeCP c.proof).length := by
  simp only [compressed_proof_to_bytes, List.length_append, write_u32,
    leBytes_length, write_field_vec_length]

theorem compressed_proof_from_bytes_to_bytes {CP : Type}
    (writeCP : CP → List Nat) (readCP : List Nat → Option CP)
    (c : CompressedProofWithPublicInputs CP)
    (hread : readCP (writeCP c.proof) = some c.proof)
    (hpis : ∀ x ∈ c.public_inputs, x < 2 ^ 64)
    (hlen : c.public_inputs.length < 2 ^ 32) :
    compressed_proof_from_bytes readCP (compressed_proof_to_bytes writeCP c)
      = some c := by
  have hw32 : (write_u32 c.public_inputs.length).length = 4 :=
    leBytes_length 4 _
  have hwfv : (write_field_vec c.public_inputs).length
      = 8 * c.public_inputs.length := write_field_vec_length _
  have hbytes : compressed_proof_to_bytes writeCP c
      = write_u32 c.public_inputs.length
        ++ (write_field_vec c.public_inputs ++ writeCP c.proof) := by
    simp [compressed_proof_to_bytes]
  have htotal := compressed_proof_to_bytes_length writeCP c
  have hprefix : leNat ((compressed_proof_to_bytes writeCP c).take 4)
      = c.public_inputs.length := by
    rw [hbytes, List.take_left' hw32, write_u32, leNat_leBytes]
    have : (256 : Nat) ^ 4 = 2 ^ 32 := by norm_num
    rw [this]
    exact Nat.mod_eq_of_lt hlen
  have hdrop4 : (compressed_proof_to_bytes writeCP c).drop 4
      = write_field_vec c.public_inputs ++ writeCP c.proof := by
    rw [hbytes, List.drop_left' hw32]
  have hru : read_u32 (compressed_proof_to_bytes writeCP c)
      = some (c.public_inputs.length,
          write_field_vec c.public_inputs ++ writeCP c.proof) := by
    unfold read_u32
    rw [if_pos (by omega), hprefix, hdrop4]
  have hrf : read_field_vec c.public_inputs.length
        (write_field_vec c.public_inputs ++ writeCP c.proof)
      = some (c.public_inputs, writeCP c.proof) := by
    unfold read_field_vec
    rw [if_pos (by simp [List.length_append, hwfv]),
      fieldChunks_write_field_vec _ _ hpis, List.drop_left' hwfv]
  simp only [compressed_proof_from_bytes, hru, hrf, hread]

/-- Claim C1: for every proof `p` and verifier metadata `meta` such that
encoding succeeds, decoding `encode_plonky2_proof p meta` with the same
`meta` via `decode_plonky2_proof` returns `p` (public inputs and proof
object identical).  The plonky2 operations are taken at their interface
boundary: the hypotheses are their documented round-trip laws (compress
then decompress is the identity, the compressed-proof reader inverts the
writer) plus canonicity of the public inputs. -/
theorem encode_decode_roundtrip {P CP Meta : Type}
    (compress :
      ProofWithPublicInputs P → Meta →
        Option (CompressedProofWithPublicInputs CP))
    (decompress :
      CompressedProofWithPublicInputs CP → Meta →
        Option (ProofWithPublicInputs P))
    (writeCP : CP → List Nat) (readCP : List Nat → Option CP)
    (p : ProofWithPublicInputs P) (meta : Meta)
    (c : CompressedProofWithPublicInputs CP) (enc : List Nat)
    (hcomp : compress p meta = some c)
    (hdecomp : decompress c meta = some p)
    (hread : readCP (writeCP c.proof) = some c.proof)
    (hpis : ∀ x ∈ c.public_inputs, x < goldilocksOrder)
    (hlen : c.public_inputs.length < 2 ^ 32)
    (henc : encode_plonky2_proof compress writeCP p meta = some enc) :
    decode_plonky2_proof decompress readCP enc meta = some p := by
  have henc' : enc = compressed_proof_to_bytes writeCP c := by
    rw [encode_plonky2_proof, hcomp] at henc
    exact (Option.some_inj.mp henc).symm
  have hpis' : ∀ x ∈ c.public_inputs, x < 2 ^ 64 := fun x hx =>
    lt_trans (hpis x hx) goldilocksOrder_lt_two_pow_64
  rw [henc']
  simp only [decode_plonky2_proof,
    compressed_proof_from_bytes_to_bytes writeCP readCP c hread hpis' hlen,
    hdecomp]

/-- Claim C1 witness: a concrete proof over concrete (lawful-at-this-input)
library operations round-trips through the codec. -/
theorem encode_decode_roundtrip_witness :
    decode_plonky2_proof
      (fun _ _ => some (⟨5, [3]⟩ : ProofWithPublicInputs Nat))
      (fun bs => match bs with | [a] => some a | _ => none)
      [1, 0, 0, 0, 3, 0, 0, 0, 0, 0, 0, 0, 9] ()
      = some (⟨5, [3]⟩ : ProofWithPublicInputs Nat) :=
  encode_decode_roundtrip
    (fun _ _ => some (⟨9, [3]⟩ : CompressedProofWithPublicInputs Nat))
    (fun _ _ => some (⟨5, [3]⟩ : ProofWithPublicInputs Nat))
    (fun n => [n])
    (fun bs => match bs with | [a] => some a | _ => none)
    ⟨5, [3]⟩ () ⟨9, [3]⟩ [1, 0, 0, 0, 3, 0, 0, 0, 0, 0, 0, 0, 9]
    rfl rfl rfl (by decide) (by decide) rfl

/-- Claim C4: `compressed_proof_from_bytes` on a byte sequence whose
4-byte length prefix claims more field elements than the remaining bytes
hold returns an error (`none`, the `IoResult` failure): it is a total
function (never panics), and it never produces a partially constructed
value — any successful decode factors through a successful prefix read,
a successful field-vector read of exactly the announced count, and a
successful compressed-proof parse of the remaining bytes. -/
theorem compressed_proof_from_bytes_all_or_nothing {CP : Type}
    (readCP : List Nat → Option CP) (bytes : List Nat) :
    (bytes.length < 4 → compressed_proof_from_bytes readCP bytes = none) ∧
    (∀ n rest, read_u32 bytes = some (n, rest) → rest.length < 8 * n →
      compressed_proof_from_bytes readCP bytes = none) ∧
    (∀ c, compressed_proof_from_bytes readCP bytes = some c →
      ∃ n rest public_inputs rest2,
        read_u32 bytes = some (n, rest) ∧
        read_field_vec n rest = some (public_inputs, rest2) ∧
        readCP rest2 = some c.proof ∧
        c.public_inputs = public_inputs ∧ public_inputs.length = n) := by
  refine ⟨?_, ?_, ?_⟩
  · intro h
    have h0 : read_u32 bytes = none := by
      unfold read_u32
      rw [if_neg (by omega)]
    simp only [compressed_proof_from_bytes, h0]
  · intro n rest h1 h2
    have h0 : read_field_vec n rest = none := by
      unfold read_field_vec
      rw [if_neg (by omega)]
    simp only [compressed_proof_from_bytes, h1, h0]
  · intro c h
    rw [compressed_proof_from_bytes] at h
    split at h
    · exact Option.noConfusion h
    rename_i n rest h1
    split at h
    · exact Option.noConfusion h
    rename_i public_inputs rest2 h2
    split at h
    · exact Option.noConfusion h
    rename_i proof h3
    have hc : c = ⟨proof, public_inputs⟩ := (Option.some_inj.mp h).symm
    have hn : public_inputs.length = n := by
      unfold read_field_vec at h2
      by_cases hle : 8 * n ≤ rest.length
      · rw [if_pos hle] at h2
        have := (Prod.mk.injEq _ _ _ _).mp (Option.some_inj.mp h2)
        rw [← this.1, fieldChunks_length]
      · rw [if_neg hle] at h2
        exact absurd h2 (by simp)
    subst hc
    exact ⟨n, rest, public_inputs, rest2, h1, h2, h3, rfl, hn⟩

/-- Claim C4 witness: a prefix announcing 2 field elements over 3
remaining bytes fails to decode. -/
theorem compressed_proof_from_bytes_all_or_nothing_witness :
    compressed_proof_from_bytes (fun _ => (none : Option Nat))
      [2, 0, 0, 0, 1, 2, 3] = none :=
  (compressed_proof_from_bytes_all_or_nothing (fun _ => (none : Option Nat))
    [2, 0, 0, 0, 1, 2, 3]).2.1 2 [1, 2, 3] (by decide) (by decide)

/-- Claim C5: the encoder emits exactly a 4-byte unsigned length prefix
equal to the number of public inputs, then the public-input field
elements in canonical 8-byte little-endian encoding, then the compressed
proof's native serialization, and nothing else: the first 4 bytes decode
to the count, the next `8 * n` bytes are the field vector, the remainder
is exactly the native serialization, and the total length accounts for
every byte (no version tag, magic number, or embedded metadata). -/
theorem compressed_proof_to_bytes_format {CP : Type} (writeCP : CP → List Nat)
    (c : CompressedProofWithPublicInputs CP)
    (hlen : c.public_inputs.length < 2 ^ 32) :
    compressed_proof_to_bytes writeCP c
        = write_u32 c.public_inputs.length
          ++ write_field_vec c.public_inputs ++ writeCP c.proof ∧
    leNat ((compressed_proof_to_bytes writeCP c).take 4)
        = c.public_inputs.length ∧
    ((compressed_proof_to_bytes writeCP c).drop 4).take
        (8 * c.public_inputs.length) = write_field_vec c.public_inputs ∧
    (compressed_proof_to_bytes writeCP c).drop
        (4 + 8 * c.public_inputs.length) = writeCP c.proof ∧
    (compressed_proof_to_bytes writeCP c).length
        = 4 + 8 * c.public_inputs.length + (writeCP c.proof).length := by
  have hw32 : (write_u32 c.public_inputs.length).length = 4 :=
    leBytes_length 4 _
  have hwfv : (write_field_vec c.public_inputs).length
      = 8 * c.public_inputs.length := write_field_vec_length _
  have hbytes : compressed_proof_to_bytes writeCP c
      = write_u32 c.public_inputs.length
        ++ (write_field_vec c.public_inputs ++ writeCP c.proof) := by
    simp [compressed_proof_to_bytes]
  have hdrop4 : (compressed_proof_to_bytes writeCP c).drop 4
      = write_field_vec c.public_inputs ++ writeCP c.proof := by
    rw [hbytes, List.drop_left' hw32]
  refine ⟨by simp [compressed_proof_to_bytes], ?_, ?_, ?_,
    compressed_proof_to_bytes_length writeCP c⟩
  · rw [hbytes, List.take_left' hw32, write_u32, leNat_leBytes]
    have : (256 : Nat) ^ 4 = 2 ^ 32 := by norm_num
    rw [this]
    exact Nat.mod_eq_of_lt hlen
  · rw [hdrop4, List.take_left' hwfv]
  · have hbytes2 : compressed_proof_to_bytes writeCP c
        = (write_u32 c.public_inputs.length ++ write_field_vec c.public_inputs)
          ++ writeCP c.proof := by
      simp [compressed_proof_to_bytes]
    rw [hbytes2]
    exact List.drop_left' (by simp [List.length_append, hw32, hwfv])

/-- Claim C5 witness: the format equations at a concrete compressed
proof with two public inputs. -/
theorem compressed_proof_to_bytes_format_witness :
    compressed_proof_to_bytes (fun n => [n % 256])
        (⟨7, [3, 5]⟩ : CompressedProofWithPublicInputs Nat)
        = write_u32 2 ++ write_field_vec [3, 5] ++ [7] ∧
    leNat ((compressed_proof_to_bytes (fun n => [n % 256])
        (⟨7, [3, 5]⟩ : CompressedProofWithPublicInputs Nat)).take 4) = 2 ∧
    ((compressed_proof_to_bytes (fun n => [n % 256])
        (⟨7, [3, 5]⟩ : CompressedProofWithPublicInputs Nat)).drop 4).take
        (8 * 2) = write_field_vec [3, 5] ∧
    (compressed_proof_to_bytes (fun n => [n % 256])
        (⟨7, [3, 5]⟩ : CompressedProofWithPublicInputs Nat)).drop (4 + 8 * 2)
        = [7] ∧
    (compressed_proof_to_bytes (fun n => [n % 256])
        (⟨7, [3, 5]⟩ : CompressedProofWithPublicInputs Nat)).length
        = 4 + 8 * 2 + 1 :=
  compressed_proof_to_bytes_format (fun n => [n % 256]) ⟨7, [3, 5]⟩
    (by decide)

theorem with_retry_first_response (maxAttempts : Nat)
    (attempts : Nat → AttemptOutcome) (r : Response)
    (hmax : 1 ≤ maxAttempts)
    (h0 : attempts 0 = AttemptOutcome.gotResponse r) :
    with_retry maxAttempts attempts = (1, Except.ok r) := by
  obtain ⟨m, rfl⟩ : ∃ m, maxAttempts = m + 1 := ⟨maxAttempts - 1, by omega⟩
  unfold with_retry with_retry_go
  rw [h0]

theorem handle_response_non2xx {R : Type}
    (parseErrorResponse : String → Option ErrorResponse)
    (parseBody : String → Option R) (response : Response) (url : String)
    (request_str : Option String)
    (hst : statusIsSuccess response.status = false) :
    handle_response parseErrorResponse parseBody response url request_str
      = Except.error (ServerError.ServerError response.status
          (match parseErrorResponse
              (response.body.getD "Failed to read error response") with
            | some error_resp => error_resp.message.getD error_resp.error
            | none => response.body.getD "Failed to read error response")
          url ((request_str.map (fun s => s.take 500)).getD "")) := by
  unfold handle_response
  rw [hst, if_pos (show (!false) = true from rfl)]

theorem post_request_reaches_handler {B R : Type}
    (serializeBody : B → Option String)
    (parseErrorResponse : String → Option ErrorResponse)
    (parseBody : String → Option R) (maxAttempts : Nat)
    (attempts : Nat → AttemptOutcome) (base_url endpoint : String)
    (body : B) (bearer_token : Option String) (resp : Response)
    (body_str : String)
    (hmax : 1 ≤ maxAttempts)
    (h0 : attempts 0 = AttemptOutcome.gotResponse resp)
    (hser : serializeBody body = some body_str) :
    post_request serializeBody parseErrorResponse parseBody maxAttempts
        attempts base_url endpoint body bearer_token
      = (1, handle_response parseErrorResponse parseBody resp
          (base_url ++ endpoint) (some body_str)) := by
  simp only [post_request,
    with_retry_first_response maxAttempts attempts resp hmax h0, hser]

/-- The url a `get_request` targets: `base_url ++ endpoint`, with
`?query` appended exactly when a query string is present (query.rs lines
59-70). -/
def getRequestUrl (base_url endpoint : String) (query_str : Option String) :
    String :=
  match query_str with
  | some qs => base_url ++ endpoint ++ "?" ++ qs
  | none => base_url ++ endpoint

theorem get_request_reaches_handler {Q R : Type}
    (serializeQuery : Q → Option String)
    (parseErrorResponse : String → Option ErrorResponse)
    (parseBody : String → Option R) (maxAttempts : Nat)
    (attempts : Nat → AttemptOutcome) (base_url endpoint : String)
    (query : Option Q) (bearer_token : Option String) (resp : Response)
    (query_str : Option String)
    (hmax : 1 ≤ maxAttempts)
    (h0 : attempts 0 = AttemptOutcome.gotResponse resp)
    (hq : querySerialize serializeQuery query = Except.ok query_str) :
    get_request serializeQuery parseErrorResponse parseBody maxAttempts
        attempts base_url endpoint query bearer_token
      = (1, handle_response parseErrorResponse parseBody resp
          (getRequestUrl base_url endpoint query_str) query_str) := by
  simp only [get_request, hq,
    with_retry_first_response maxAttempts attempts resp hmax h0]
  cases query_str with
  | none => rfl
  | some qs => rfl

/-- Claim C6: a request through `post_request` or `get_request` that
receives a well-formed HTTP response with a non-2xx status makes exactly
one network call — the non-2xx response is never retried — and is
surfaced immediately as a server-rejection error
(`ServerError::ServerError`). -/
theorem non_2xx_never_retried {B Q R : Type}
    (serializeBody : B → Option String)
    (serializeQuery : Q → Option String)
    (parseErrorResponse : String → Option ErrorResponse)
    (parseBody : String → Option R) (maxAttempts : Nat)
    (attempts : Nat → AttemptOutcome) (base_url endpoint : String)
    (body : B) (query : Option Q) (bearer_token : Option String)
    (resp : Response) (body_str : String) (query_str : Option String)
    (hmax : 1 ≤ maxAttempts)
    (h0 : attempts 0 = AttemptOutcome.gotResponse resp)
    (hst : statusIsSuccess resp.status = false)
    (hser : serializeBody body = some body_str)
    (hq : querySerialize serializeQuery query = Except.ok query_str) :
    ((post_request serializeBody parseErrorResponse parseBody maxAttempts
        attempts base_url endpoint body bearer_token).1 = 1 ∧
      ∃ msg abr,
        (post_request serializeBody parseErrorResponse parseBody maxAttempts
            attempts base_url endpoint body bearer_token).2
          = Except.error (ServerError.ServerError resp.status msg
              (base_url ++ endpoint) abr)) ∧
    ((get_request serializeQuery parseErrorResponse parseBody maxAttempts
        attempts base_url endpoint query bearer_token).1 = 1 ∧
      ∃ msg url abr,
        (get_request serializeQuery parseErrorResponse parseBody maxAttempts
            attempts base_url endpoint query bearer_token).2
          = Except.error (ServerError.ServerError resp.status msg url abr)) := by
  have hpost := post_request_reaches_handler serializeBody parseErrorResponse
    parseBody maxAttempts attempts base_url endpoint body bearer_token resp
    body_str hmax h0 hser
  have hget := get_request_reaches_handler serializeQuery parseErrorResponse
    parseBody maxAttempts attempts base_url endpoint query bearer_token resp
    query_str hmax h0 hq
  refine ⟨⟨by rw [hpost], ?_⟩, ⟨by rw [hget], ?_⟩⟩
  · rw [show (post_request serializeBody parseErrorResponse parseBody
        maxAttempts attempts base_url endpoint body bearer_token).2
          = handle_response parseErrorResponse parseBody resp
            (base_url ++ endpoint) (some body_str) from by rw [hpost],
      handle_response_non2xx parseErrorResponse parseBody resp _ _ hst]
    exact ⟨_, _, rfl⟩
  · rw [show (get_request serializeQuery parseErrorResponse parseBody
        maxAttempts attempts base_url endpoint query bearer_token).2
          = handle_response parseErrorResponse parseBody resp
            (getRequestUrl base_url endpoint query_str) query_str from
        by rw [hget],
      handle_response_non2xx parseErrorResponse parseBody resp _ _ hst]
    exact ⟨_, _, _, rfl⟩

/-- Claim C6 witness: a concrete 404 response is surfaced after exactly
one network call. -/
theorem non_2xx_never_retried_witness :
    ((post_request (fun _ : Nat => some "reqbody") (fun _ => none)
        (fun _ => (none : Option Nat)) 3
        (fun _ => AttemptOutcome.gotResponse ⟨404, some "nope"⟩)
        "http://x" "/y" 0 none).1 = 1 ∧
      ∃ msg abr,
        (post_request (fun _ : Nat => some "reqbody") (fun _ => none)
            (fun _ => (none : Option Nat)) 3
            (fun _ => AttemptOutcome.gotResponse ⟨404, some "nope"⟩)
            "http://x" "/y" 0 none).2
          = Except.error (ServerError.ServerError 404 msg
              ("http://x" ++ "/y") abr)) ∧
    ((get_request (fun _ : Nat => some "") (fun _ => none)
        (fun _ => (none : Option Nat)) 3
        (fun _ => AttemptOutcome.gotResponse ⟨404, some "nope"⟩)
        "http://x" "/y" none none).1 = 1 ∧
      ∃ msg url abr,
        (get_request (fun _ : Nat => some "") (fun _ => none)
            (fun _ => (none : Option Nat)) 3
            (fun _ => AttemptOutcome.gotResponse ⟨404, some "nope"⟩)
            "http://x" "/y" none none).2
          = Except.error (ServerError.ServerError 404 msg url abr)) :=
  non_2xx_never_retried (fun _ : Nat => some "reqbody") (fun _ : Nat => some "")
    (fun _ => none) (fun _ => (none : Option Nat)) 3
    (fun _ => AttemptOutcome.gotResponse ⟨404, some "nope"⟩)
    "http://x" "/y" 0 none none ⟨404, some "nope"⟩ "reqbody" none
    (by decide) rfl rfl rfl rfl

/-- Claim C7: on a non-2xx response the body is parsed as a structured
error object; a parsed `message` is preferred, else the parsed `error`
field, and on a parse failure the raw response text is used verbatim as
the error message (no truncation at this layer). -/
theorem non_2xx_error_message_selection {R : Type}
    (parseErrorResponse : String → Option ErrorResponse)
    (parseBody : String → Option R) (response : Response) (url : String)
    (request_str : Option String) (t : String)
    (hbody : response.body = some t)
    (hst : statusIsSuccess response.status = false) :
    (∀ e m, parseErrorResponse t = some ⟨e, some m⟩ →
      handle_response parseErrorResponse parseBody response url request_str
        = Except.error (ServerError.ServerError response.status m url
            ((request_str.map (fun s => s.take 500)).getD ""))) ∧
    (∀ e, parseErrorResponse t = some ⟨e, none⟩ →
      handle_response parseErrorResponse parseBody response url request_str
        = Except.error (ServerError.ServerError response.status e url
            ((request_str.map (fun s => s.take 500)).getD ""))) ∧
    (parseErrorResponse t = none →
      handle_response parseErrorResponse parseBody response url request_str
        = Except.error (ServerError.ServerError response.status t url
            ((request_str.map (fun s => s.take 500)).getD ""))) := by
  have hhr := handle_response_non2xx parseErrorResponse parseBody response
    url request_str hst
  rw [hbody] at hhr
  simp only [Option.getD_some] at hhr
  refine ⟨?_, ?_, ?_⟩
  · intro e m hp
    rw [hhr, hp]
    rfl
  · intro e hp
    rw [hhr, hp]
    rfl
  · intro hp
    rw [hhr, hp]

/-- Claim C7 witness: the three parse outcomes at concrete responses. -/
theorem non_2xx_error_message_selection_witness :
    (∀ e m, (fun s => if s = "b" then some (⟨"E", some "M"⟩ : ErrorResponse)
          else none) "b" = some (⟨e, some m⟩ : ErrorResponse) →
      handle_response
          (fun s => if s = "b" then some ⟨"E", some "M"⟩ else none)
          (fun _ => (none : Option Nat)) ⟨500, some "b"⟩ "u" (some "req")
        = Except.error (ServerError.ServerError 500 m "u"
            (((some "req").map (fun s => s.take 500)).getD ""))) ∧
    (∀ e, (fun s => if s = "b" then some (⟨"E", some "M"⟩ : ErrorResponse)
          else none) "b" = some (⟨e, none⟩ : ErrorResponse) →
      handle_response
          (fun s => if s = "b" then some ⟨"E", some "M"⟩ else none)
          (fun _ => (none : Option Nat)) ⟨500, some "b"⟩ "u" (some "req")
        = Except.error (ServerError.ServerError 500 e "u"
            (((some "req").map (fun s => s.take 500)).getD ""))) ∧
    ((fun s => if s = "b" then some (⟨"E", some "M"⟩ : ErrorResponse)
          else none) "b" = none →
      handle_response
          (fun s => if s = "b" then some ⟨"E", some "M"⟩ else none)
          (fun _ => (none : Option Nat)) ⟨500, some "b"⟩ "u" (some "req")
        = Except.error (ServerError.ServerError 500 "b" "u"
            (((some "req").map (fun s => s.take 500)).getD ""))) :=
  non_2xx_error_message_selection
    (fun s => if s = "b" then some ⟨"E", some "M"⟩ else none)
    (fun _ => (none : Option Nat)) ⟨500, some "b"⟩ "u" (some "req") "b"
    rfl rfl

set_option maxRecDepth 20000 in
/-- Claim C8: a request with a body that draws a non-2xx response yields
a server-rejection error carrying the serialized outgoing body truncated
to its first 500 characters; a request without a body (a GET with no
query) carries an empty request string in the error. -/
theorem request_body_echo {B Q R : Type}
    (serializeBody : B → Option String)
    (serializeQuery : Q → Option String)
    (parseErrorResponse : String → Option ErrorResponse)
    (parseBody : String → Option R) (maxAttempts : Nat)
    (attempts : Nat → AttemptOutcome) (base_url endpoint : String)
    (body : B) (bearer_token : Option String)
    (resp : Response) (body_str : String)
    (hmax : 1 ≤ maxAttempts)
    (h0 : attempts 0 = AttemptOutcome.gotResponse resp)
    (hst : statusIsSuccess resp.status = false)
    (hser : serializeBody body = some body_str) :
    (∃ msg,
      (post_request serializeBody parseErrorResponse parseBody maxAttempts
          attempts base_url endpoint body bearer_token).2
        = Except.error (ServerError.ServerError resp.status msg
            (base_url ++ endpoint) (body_str.take 500))) ∧
    (∃ msg,
      (get_request serializeQuery parseErrorResponse parseBody maxAttempts
          attempts base_url endpoint (none : Option Q) bearer_token).2
        = Except.error (ServerError.ServerError resp.status msg
            (base_url ++ endpoint) "")) := by
  have hpost := post_request_reaches_handler serializeBody parseErrorResponse
    parseBody maxAttempts attempts base_url endpoint body bearer_token resp
    body_str hmax h0 hser
  have hget := get_request_reaches_handler serializeQuery parseErrorResponse
    parseBody maxAttempts attempts base_url endpoint (none : Option Q)
    bearer_token resp none hmax h0 rfl
  constructor
  · rw [show (post_request serializeBody parseErrorResponse parseBody
        maxAttempts attempts base_url endpoint body bearer_token).2
          = handle_response parseErrorResponse parseBody resp
            (base_url ++ endpoint) (some body_str) from by rw [hpost],
      handle_response_non2xx parseErrorResponse parseBody resp _ _ hst]
    simp only [Option.map_some', Option.getD_some]
    exact ⟨_, rfl⟩
  · rw [show (get_request serializeQuery parseErrorResponse parseBody
        maxAttempts attempts base_url endpoint (none : Option Q)
        bearer_token).2
          = handle_response parseErrorResponse parseBody resp
            (getRequestUrl base_url endpoint none) none from by rw [hget],
      handle_response_non2xx parseErrorResponse parseBody resp _ _ hst]
    simp only [Option.map_none', Option.getD_none, getRequestUrl]
    exact ⟨_, rfl⟩

/-- Claim C8 witness: the echoed request string at a concrete POST body
and a concrete query-less GET. -/
theorem request_body_echo_witness :
    (∃ msg,
      (post_request (fun _ : Nat => some "reqbody") (fun _ => none)
          (fun _ => (none : Option Nat)) 3
          (fun _ => AttemptOutcome.gotResponse ⟨500, none⟩)
          "http://x" "/y" 0 none).2
        = Except.error (ServerError.ServerError 500 msg
            ("http://x" ++ "/y") (String.take "reqbody" 500))) ∧
    (∃ msg,
      (get_request (fun _ : Nat => some "") (fun _ => none)
          (fun _ => (none : Option Nat)) 3
          (fun _ => AttemptOutcome.gotResponse ⟨500, none⟩)
          "http://x" "/y" (none : Option Nat) none).2
        = Except.error (ServerError.ServerError 500 msg
            ("http://x" ++ "/y") "")) :=
  request_body_echo (fun _ : Nat => some "reqbody") (fun _ : Nat => some "")
    (fun _ => none) (fun _ => (none : Option Nat)) 3
    (fun _ => AttemptOutcome.gotResponse ⟨500, none⟩)
    "http://x" "/y" 0 none ⟨500, none⟩ "reqbody" (by decide) rfl rfl rfl

/-- Claim C9: every proving-client operation reads the bearer token from
process-wide configuration at call time, and when the token is absent it
returns `ServerError::EnvError` with zero network calls performed — the
failure precedes any network I/O, for all six operations. -/
theorem prove_ops_missing_token {K SW U TW UW RTW RDW WW Pf : Type}
    (ctxSpent : PostContext (ProveSpentRequest SW) (ProveResponse Pf))
    (ctxSend : PostContext (ProveSendRequest U TW UW Pf) (ProveResponse Pf))
    (ctxUpdate : PostContext (ProveUpdateRequest U UW Pf) (ProveResponse Pf))
    (ctxRcvTransfer :
      PostContext (ProveReceiveTransferRequest U RTW Pf) (ProveResponse Pf))
    (ctxRcvDeposit :
      PostContext (ProveReceiveDepositRequest U RDW Pf) (ProveResponse Pf))
    (ctxWithdrawal :
      PostContext (ProveSingleWithdrawalRequest WW) (ProveResponse Pf))
    (base_url : String) (k : K) (pubkey : U) (sw : SW) (tw : TW) (uw : UW)
    (rtw : RTW) (rdw : RDW) (ww : WW) (spent_proof : Pf)
    (prev_proof : Option Pf) :
    prove_spent none ctxSpent base_url k sw
        = (0, Except.error (ServerError.EnvError
            "Failed to get bearer token: environment variable not found")) ∧
    prove_send none ctxSend base_url k pubkey tw uw spent_proof prev_proof
        = (0, Except.error (ServerError.EnvError
            "Failed to get bearer token: environment variable not found")) ∧
    prove_update none ctxUpdate base_url k pubkey uw prev_proof
        = (0, Except.error (ServerError.EnvError
            "Failed to get bearer token: environment variable not found")) ∧
    prove_receive_transfer none ctxRcvTransfer base_url k pubkey rtw
        prev_proof
        = (0, Except.error (ServerError.EnvError
            "Failed to get bearer token: environment variable not found")) ∧
    prove_receive_deposit none ctxRcvDeposit base_url k pubkey rdw prev_proof
        = (0, Except.error (ServerError.EnvError
            "Failed to get bearer token: environment variable not found")) ∧
    prove_single_withdrawal none ctxWithdrawal base_url k ww
        = (0, Except.error (ServerError.EnvError
            "Failed to get bearer token: environment variable not found")) :=
  ⟨rfl, rfl, rfl, rfl, rfl, rfl⟩

/-- Claim C10: for every proving-client operation, two calls differing
only in the caller's key argument build identical requests and produce
identical results — the key has no influence on the operation (it is
never sent to the prover), for any environment, serde/network context,
and inputs. -/
theorem prove_ops_key_irrelevant {K SW U TW UW RTW RDW WW Pf : Type}
    (env : Option String)
    (ctxSpent : PostContext (ProveSpentRequest SW) (ProveResponse Pf))
    (ctxSend : PostContext (ProveSendRequest U TW UW Pf) (ProveResponse Pf))
    (ctxUpdate : PostContext (ProveUpdateRequest U UW Pf) (ProveResponse Pf))
    (ctxRcvTransfer :
      PostContext (ProveReceiveTransferRequest U RTW Pf) (ProveResponse Pf))
    (ctxRcvDeposit :
      PostContext (ProveReceiveDepositRequest U RDW Pf) (ProveResponse Pf))
    (ctxWithdrawal :
      PostContext (ProveSingleWithdrawalRequest WW) (ProveResponse Pf))
    (base_url : String) (k1 k2 : K) (pubkey : U) (sw : SW) (tw : TW)
    (uw : UW) (rtw : RTW) (rdw : RDW) (ww : WW) (spent_proof : Pf)
    (prev_proof : Option Pf) :
    prove_spent env ctxSpent base_url k1 sw
        = prove_spent env ctxSpent base_url k2 sw ∧
    prove_send env ctxSend base_url k1 pubkey tw uw spent_proof prev_proof
        = prove_send env ctxSend base_url k2 pubkey tw uw spent_proof
            prev_proof ∧
    prove_update env ctxUpdate base_url k1 pubkey uw prev_proof
        = prove_update env ctxUpdate base_url k2 pubkey uw prev_proof ∧
    prove_receive_transfer env ctxRcvTransfer base_url k1 pubkey rtw
        prev_proof
        = prove_receive_transfer env ctxRcvTransfer base_url k2 pubkey rtw
            prev_proof ∧
    prove_receive_deposit env ctxRcvDeposit base_url k1 pubkey rdw prev_proof
        = prove_receive_deposit env ctxRcvDeposit base_url k2 pubkey rdw
            prev_proof ∧
    prove_single_withdrawal env ctxWithdrawal base_url k1 ww
        = prove_single_withdrawal env ctxWithdrawal base_url k2 ww :=
  ⟨rfl, rfl, rfl, rfl, rfl, rfl⟩

end Intmax2Cli
